import Mathlib

/-!
# Verification of the gengitIA recruitment-assistance service

Shallow embedding, in Lean 4, of the scoring / search / ranking pipeline of
the gengitIA repository (`src/services/ai_service.py`, `src/main.py`,
`src/services/database_service.py`, `src/models.py`), together with proofs
about the embedded definitions.

Modelling conventions:
* Python `float` arithmetic is modelled exactly over `ℚ`; the scores involved
  are small rational expressions (`len/len * 100`, `* 0.7`), and the formulas of the spec
  are the formulas of the code, so both are read in exact rational
  arithmetic.  The float literal `0.7` is the rational `7/10`.
* Python `set(...)` of strings is modelled by `List.dedup`; set intersection
  cardinality `len(A & B)` becomes the length of `interList a b`.
  `list(someSet)` has arbitrary iteration order in Python; the embedding
  fixes first-occurrence order, and all set-level statements are phrased up
  to membership.
* `str.lower()` is character-wise lowering (`pyToLower`; the data of the repository
  is handled character by character exactly as `str.lower` does for
  its ASCII range), `a in b` on strings is contiguous-substring search
  (`pyIn`, empty needle matches), `s.split()` is whitespace-run
  tokenisation dropping empties (`pyWords`).
* `list.sort(key=..., reverse=True)` (Timsort, stable) is modelled by
  the stable Mathlib `List.insertionSort` with the reflexive descending-key
  relation; two stable sorts with the same key order agree elementwise.
-/

namespace Gengit

/-! ## Python string primitives -/

/-- Python whitespace class used by `str.split()` with no arguments. -/
def pyIsSpace (c : Char) : Bool :=
  c == ' ' || c == '\t' || c == '\n' || c == '\x0d' || c == '\x0b' || c == '\x0c'

/-- Split a character list at every whitespace character, keeping the
(possibly empty) pieces between boundaries. -/
def splitRuns (cur : List Char) : List Char → List (List Char)
  | [] => [cur.reverse]
  | c :: cs =>
      if pyIsSpace c then cur.reverse :: splitRuns [] cs
      else splitRuns (c :: cur) cs

/-- Python `s.split()` : split on runs of whitespace, dropping empty
pieces. -/
def pyWords (s : String) : List String :=
  ((splitRuns [] s.data).map (fun l => (⟨l⟩ : String))).filter (fun w => w ≠ "")

/-- Python `s.lower()`: character-wise lowercase map. -/
def pyToLower (s : String) : String :=
  ⟨s.data.map Char.toLower⟩

/-- Does the character list `n` occur at the head of `h`? -/
def chStarts : List Char → List Char → Bool
  | [], _ => true
  | _ :: _, [] => false
  | a :: as, b :: bs => a == b && chStarts as bs

/-- Does the character list `n` occur contiguously anywhere in `h`? -/
def chHasSub (n : List Char) : List Char → Bool
  | [] => n.isEmpty
  | b :: hs => chStarts n (b :: hs) || chHasSub n hs

/-- Python `needle in haystack` for strings (the empty needle always
matches). -/
def pyIn (needle haystack : String) : Bool :=
  chHasSub needle.data haystack.data

/-- Python `" ".join(l)`. -/
def pyJoinSpace : List String → String
  | [] => ""
  | [x] => x
  | x :: xs => x ++ " " ++ pyJoinSpace xs

/-- The distinct elements of `a` that also occur in `b`:
Python `set(a) & set(b)` enumerated in first-occurrence order of `a`. -/
def interList (a b : List String) : List String :=
  a.dedup.filter (fun s => decide (s ∈ b))

/-! ## Stable descending sort by a key

Python `list.sort(key=k, reverse=True)` is a stable sort placing larger keys
first.  `List.insertionSort` with the relation `k b ≤ k a` is also stable, so
the two agree. -/

/-- Stable descending sort by the key `f`. -/
def sortDescBy {α : Type} {κ : Type} [LinearOrder κ] (f : α → κ) (l : List α) : List α :=
  List.insertionSort (fun a b => f b ≤ f a) l

/-! ## JSON values

`json.loads` (Python stdlib, external to this repository) yields untyped
values; the code manipulates them as dicts/lists/strings/numbers.  `JValue`
is that value universe.  Dict lookup keeps the *last* binding of a key, as
`json.loads` does for duplicate keys. -/

inductive JValue : Type where
  | null : JValue
  | bool (b : Bool) : JValue
  | num (q : ℚ) : JValue
  | str (s : String) : JValue
  | arr (xs : List JValue) : JValue
  | obj (kvs : List (String × JValue)) : JValue

/-- Python `d.get(k)` on the dict produced by `json.loads`: last binding wins. -/
def jGet (kvs : List (String × JValue)) (k : String) : Option JValue :=
  kvs.foldl (fun acc p => if p.1 = k then some p.2 else acc) none

/-- Is this JSON value a list? -/
def JValue.isList : JValue → Bool
  | .arr _ => true
  | _ => false

/-! ### Python `float()` on JSON values

`float(x)` succeeds on numbers and booleans, parses common decimal string
forms (optional surrounding whitespace, sign, digits with an optional
fractional part and exponent), and raises `TypeError`/`ValueError` on
`None`, lists, dicts and non-numeric strings.  Float specials (`inf`,
`nan`) and digit underscores are outside the exact-rational model and are
modelled as conversion failures; no code path settled below feeds them. -/

def digitsToNat (cs : List Char) : Nat :=
  cs.foldl (fun n c => n * 10 + (c.toNat - '0'.toNat)) 0

/-- Read `digits [. digits]` (at least one digit overall) from the front. -/
def readUnsignedDec (cs : List Char) : Option (ℚ × List Char) :=
  let ip := cs.takeWhile Char.isDigit
  let rest := cs.dropWhile Char.isDigit
  match rest with
  | '.' :: r2 =>
      let fp := r2.takeWhile Char.isDigit
      let rest2 := r2.dropWhile Char.isDigit
      if ip.isEmpty && fp.isEmpty then none
      else some (((digitsToNat (ip ++ fp) : ℚ) / (10 : ℚ) ^ fp.length), rest2)
  | _ =>
      if ip.isEmpty then none else some ((digitsToNat ip : ℚ), rest)

/-- Read an optional `e`/`E` exponent. -/
def readExpPart (cs : List Char) : Option (Int × List Char) :=
  match cs with
  | 'e' :: r | 'E' :: r =>
      let (sgn, r2) : Int × List Char :=
        match r with
        | '+' :: r2 => (1, r2)
        | '-' :: r2 => (-1, r2)
        | _ => (1, r)
      let ds := r2.takeWhile Char.isDigit
      if ds.isEmpty then none
      else some (sgn * (digitsToNat ds : Int), r2.dropWhile Char.isDigit)
  | _ => some (0, cs)

/-- Python `float(s)` on a string, over `ℚ`. -/
def pyFloatOfStr (s : String) : Option ℚ :=
  let cs := (s.data.dropWhile pyIsSpace).reverse.dropWhile pyIsSpace |>.reverse
  let (sgn, cs1) : ℚ × List Char :=
    match cs with
    | '+' :: r => (1, r)
    | '-' :: r => (-1, r)
    | _ => (1, cs)
  match readUnsignedDec cs1 with
  | none => none
  | some (m, rest) =>
      match readExpPart rest with
      | some (e, []) => some (sgn * m * (10 : ℚ) ^ e)
      | _ => none

/-- Python `float(v)` on a JSON value; `.error` models a raised
`TypeError`/`ValueError`. -/
def pyFloat : JValue → Except Unit ℚ
  | .num q => .ok q
  | .bool b => .ok (if b then 1 else 0)
  | .str s => match pyFloatOfStr s with
      | some q => .ok q
      | none => .error ()
  | _ => .error ()

/-! ## Compatibility analysis (`src/services/ai_service.py`)

The analysis dict built by `_parse_analysis_response` /
`_get_fallback_analysis` / `_extract_info_from_text` is untyped in Python:
the three score fields are floats, the remaining fields hold whatever JSON
value was parsed (or the fallback constants).  The record below mirrors
that: scores are `ℚ`, the rest are `JValue`. -/

structure Analysis : Type where
  compatibility_score : ℚ
  cultural_fit_score : ℚ
  professional_fit_score : ℚ
  ai_analysis : JValue
  red_flags : JValue
  strengths : JValue
  recommendation : JValue
  suggested_questions : JValue

/-- Candidate fields used by the scorer (`candidate_data` dict). -/
structure CandidateData : Type where
  id : Nat
  name : String
  email : String
  skills : List String
deriving DecidableEq

/-- Job fields used by the scorer (`job_data` dict). -/
structure JobData : Type where
  id : Nat
  required_skills : List String
deriving DecidableEq

/-- `candidate_skills.intersection(job_skills)` in
`_get_fallback_analysis` / `_extract_info_from_text`: exact case-sensitive
string-set intersection. -/
def commonSkills (cand job : List String) : List String :=
  interList cand job

/-- `(len(common_skills) / len(job_skills) * 100) if job_skills else 0`,
where both operands of the intersection are Python sets. -/
def professionalScore (cand job : List String) : ℚ :=
  if job = [] then 0
  else ((commonSkills cand job).length : ℚ) / (job.dedup.length : ℚ) * 100

/-- `AIService._get_fallback_analysis` (ai_service.py lines 176–197). -/
def fallbackAnalysis (cand : CandidateData) (job : JobData) : Analysis :=
  { compatibility_score := professionalScore cand.skills job.required_skills * (7 / 10)
    cultural_fit_score := 50
    professional_fit_score := professionalScore cand.skills job.required_skills
    ai_analysis := .str "Análise automática baseada em skills. Análise detalhada temporariamente indisponível."
    red_flags := .arr []
    strengths := .arr ((commonSkills cand.skills job.required_skills).map JValue.str)
    recommendation := .str "EM_ANALISE"
    suggested_questions := .arr [] }

/-- `AIService._extract_info_from_text` (ai_service.py lines 151–174):
same heuristic scores, with the first 500 characters of the raw reply as
the analysis text. -/
def extractInfoFromText (text : String) (cand : CandidateData) (job : JobData) : Analysis :=
  { fallbackAnalysis cand job with ai_analysis := .str (text.take 500) }

/-- The JSON branch of `AIService._parse_analysis_response`
(ai_service.py lines 133–145), applied to the value `json.loads` produced.
A non-dict value makes `analysis.get` raise `AttributeError`, and a
non-numeric score field makes `float(...)` raise; both are modelled by
`.error` (they are caught by `analyze_candidate_compatibility`, not by the
`except json.JSONDecodeError` clause). -/
def parseAnalysisFromJson : JValue → Except Unit Analysis
  | .obj kvs =>
      match pyFloat ((jGet kvs "compatibility_score").getD (.num 0)),
            pyFloat ((jGet kvs "cultural_fit_score").getD (.num 0)),
            pyFloat ((jGet kvs "professional_fit_score").getD (.num 0)) with
      | .ok cs, .ok cf, .ok pf =>
          .ok
            { compatibility_score := cs
              cultural_fit_score := cf
              professional_fit_score := pf
              ai_analysis := (jGet kvs "analysis").getD (.str "")
              red_flags := (jGet kvs "red_flags").getD (.arr [])
              strengths := (jGet kvs "strengths").getD (.arr [])
              recommendation := (jGet kvs "recommendation").getD (.str "EM_ANALISE")
              suggested_questions := (jGet kvs "suggested_questions").getD (.arr []) }
      | .error e, _, _ => .error e
      | _, .error e, _ => .error e
      | _, _, .error e => .error e
  | _ => .error ()

/-- Outcome of the external completion call plus `json.loads` on the
fence-stripped reply text (both external collaborators):
the call itself raised; the reply text failed to decode as JSON
(`json.JSONDecodeError`); or the reply decoded to a JSON value. -/
inductive ModelOutcome : Type where
  | apiError : ModelOutcome
  | replyUnparsable (text : String) : ModelOutcome
  | replyParsed (v : JValue) : ModelOutcome

/-- `AIService.analyze_candidate_compatibility` (ai_service.py lines
19–68): any exception from the completion call or from response processing
falls back to `_get_fallback_analysis`; `json.JSONDecodeError` inside
`_parse_analysis_response` falls back to `_extract_info_from_text`. -/
def analyzeCandidateCompatibility (cand : CandidateData) (job : JobData) :
    ModelOutcome → Analysis
  | .apiError => fallbackAnalysis cand job
  | .replyUnparsable t => extractInfoFromText t cand job
  | .replyParsed v =>
      match parseAnalysisFromJson v with
      | .ok a => a
      | .error _ => fallbackAnalysis cand job

/-! ## Talent search (`AIService.search_talent_pool` and helpers) -/

/-- A candidate record handed to the talent-search ranking code
(`main.py` builds these with `level = ""`; `candidate.get("area", "")`
defaults to `""` when the key is absent). -/
structure TalentCandidate : Type where
  id : Nat
  name : String
  email : String
  skills : List String
  profile : String
  level : String
  area : String
deriving DecidableEq

/-- The dict `{**candidate, "relevance_score": score}`: the original record
augmented with exactly one extra field. -/
structure ScoredCandidate : Type where
  cand : TalentCandidate
  relevance_score : ℚ
deriving DecidableEq

/-- `text = f"{name} {skills} {profile}"` from `_simple_text_search`
(ai_service.py lines 308–312), all pieces lowercased, skills joined by a
space. -/
def searchHaystack (c : TalentCandidate) : String :=
  pyToLower c.name ++ " " ++ pyJoinSpace (c.skills.map pyToLower)
    ++ " " ++ pyToLower c.profile

/-- The per-candidate score of `_simple_text_search` (ai_service.py lines
307–322): 100 on a substring hit of the lowercased query, otherwise the
word-overlap ratio times 100 (0 when the query has no words). -/
def simpleScore (query : String) (c : TalentCandidate) : ℚ :=
  let ql := pyToLower query
  let text := searchHaystack c
  if pyIn ql text then 100
  else
    let qw := (pyWords ql).dedup
    let common := qw.filter (fun w => decide (w ∈ pyWords text))
    if qw = [] then 0
    else ((common.length : ℚ) / (qw.length : ℚ)) * 100

/-- `AIService._simple_text_search` (ai_service.py lines 297–327):
score every candidate, sort descending by score, keep strictly positive
scores. -/
def simpleTextSearch (cands : List TalentCandidate) (query : String) :
    List ScoredCandidate :=
  (sortDescBy (fun s => s.relevance_score)
      (cands.map (fun c => ⟨c, simpleScore query c⟩))).filter
    (fun s => decide (0 < s.relevance_score))

/-- Search criteria extracted from the query by the completion model
(`criteria.get("skills", [])`, `criteria.get("level", "")`,
`criteria.get("area", "")`).  On the successful criteria path these
lookups produced a list and two strings; a `null` value would raise in
`.lower()` and divert to the text fallback. -/
structure SearchCriteria : Type where
  skills : List String
  level : String
  area : String
deriving DecidableEq

/-- Skill component of `_rank_candidates_by_criteria` (ai_service.py lines
267–273): case-insensitive set overlap over the (lowercased) required
skill list length, scaled to 50; nothing when no skills are required. -/
def skillPoints (cr : SearchCriteria) (c : TalentCandidate) : ℚ :=
  let cskills := c.skills.map pyToLower
  let rskills := cr.skills.map pyToLower
  if rskills = [] then 0
  else ((interList cskills rskills).length : ℚ) / (rskills.length : ℚ) * 50

/-- Level component (ai_service.py lines 276–280): 30 points when a level
is required (non-empty and not `"qualquer"`) and either token contains the
other. -/
def levelPoints (cr : SearchCriteria) (c : TalentCandidate) : ℚ :=
  let cl := pyToLower c.level
  let rl := pyToLower cr.level
  if rl ≠ "" ∧ rl ≠ "qualquer" ∧ (pyIn rl cl || pyIn cl rl) = true then 30 else 0

/-- Area component (ai_service.py lines 283–285): 20 points when an area is
required (non-empty) and it occurs inside the area token of the candidate. -/
def areaPoints (cr : SearchCriteria) (c : TalentCandidate) : ℚ :=
  let ca := pyToLower c.area
  let ra := pyToLower cr.area
  if ra ≠ "" ∧ pyIn ra ca = true then 20 else 0

/-- Total criteria score accumulated by the loop body of
`_rank_candidates_by_criteria`. -/
def criteriaScore (cr : SearchCriteria) (c : TalentCandidate) : ℚ :=
  skillPoints cr c + levelPoints cr c + areaPoints cr c

/-- `AIService._rank_candidates_by_criteria` (ai_service.py lines 257–295):
score everybody, sort descending, no filtering. -/
def rankByCriteria (cr : SearchCriteria) (cands : List TalentCandidate) :
    List ScoredCandidate :=
  sortDescBy (fun s => s.relevance_score)
    (cands.map (fun c => ⟨c, criteriaScore cr c⟩))

/-- Outcome of the criteria-extraction step of `search_talent_pool`
(ai_service.py lines 214–255): either the model call, `json.loads` and the
criteria ranking all succeed with criteria `cr`, or any of them raises and
the `except` clause runs the plain text fallback. -/
inductive SearchOutcome : Type where
  | criteria (cr : SearchCriteria) : SearchOutcome
  | fallback : SearchOutcome
deriving DecidableEq

/-- `AIService.search_talent_pool` (ai_service.py lines 199–255). -/
def searchTalentPool (query : String) (cands : List TalentCandidate) :
    SearchOutcome → List ScoredCandidate
  | .criteria cr => rankByCriteria cr cands
  | .fallback => simpleTextSearch cands query

/-! ## Ranking endpoint (`rank_candidates`, main.py lines 102–175) -/

/-- Validation on `CandidateRankingRequest` (models.py lines 9–13):
`limit` is bounded to 1–100 and `min_compatibility` to 0–100 by the
request schema. -/
def validRankingRequest (limit : Nat) (minComp : ℚ) : Prop :=
  1 ≤ limit ∧ limit ≤ 100 ∧ 0 ≤ minComp ∧ minComp ≤ 100

/-- Per-candidate environment inside the ranking loop: the result of
`get_candidate_data` (None or full data), the model-call outcome used by
the scorer, and whether an exception is raised while processing this
candidate (the `except` clause of the loop). -/
structure CandEnv : Type where
  data : Option CandidateData
  outcome : ModelOutcome
  fails : Bool

/-- One entry of the `ranked_candidates` list (main.py lines 155–165). -/
structure RankEntry : Type where
  candidate_id : Nat
  candidate_name : String
  candidate_email : String
  compatibility_score : ℚ
  cultural_fit_score : ℚ
  professional_fit_score : ℚ
  ai_analysis : JValue
  red_flags : JValue
  recommendation : JValue

/-- Arguments of the `save_model_result` call (main.py lines 144–153). -/
structure SaveEvent : Type where
  candidate_id : Nat
  job_id : Nat
  compatibility_score : ℚ
  cultural_fit_score : ℚ
  professional_fit_score : ℚ
  ai_analysis : JValue
  red_flags : JValue
  recommendation : JValue

/-- The save event persisted for a surviving ranking entry. -/
def mkSave (jobId : Nat) (e : RankEntry) : SaveEvent :=
  { candidate_id := e.candidate_id
    job_id := jobId
    compatibility_score := e.compatibility_score
    cultural_fit_score := e.cultural_fit_score
    professional_fit_score := e.professional_fit_score
    ai_analysis := e.ai_analysis
    red_flags := e.red_flags
    recommendation := e.recommendation }

/-- Loop body of `rank_candidates` for one candidate (main.py lines
125–169): skip on missing data, on a raised exception (logged), or on a
score below the threshold; otherwise produce the ranking entry (persisted
via `save_model_result` before being appended). -/
def processOne (job : JobData) (minComp : ℚ) (cid : Nat) (env : CandEnv) :
    Option RankEntry :=
  if env.fails then none
  else
    match env.data with
    | none => none
    | some d =>
        let a := analyzeCandidateCompatibility d job env.outcome
        if a.compatibility_score < minComp then none
        else
          some
            { candidate_id := cid
              candidate_name := d.name
              candidate_email := d.email
              compatibility_score := a.compatibility_score
              cultural_fit_score := a.cultural_fit_score
              professional_fit_score := a.professional_fit_score
              ai_analysis := a.ai_analysis
              red_flags := a.red_flags
              recommendation := a.recommendation }

/-- The surviving (non-dropped) entries, in pool order. -/
def rankSurvivors (job : JobData) (minComp : ℚ) (pool : List (Nat × CandEnv)) :
    List RankEntry :=
  pool.filterMap (fun p => processOne job minComp p.1 p.2)

/-- `rank_candidates` (main.py lines 102–175): returns the response list
(survivors sorted descending by compatibility score, truncated to `limit`)
together with the list of `save_model_result` calls issued. -/
def rankCandidates (job : JobData) (minComp : ℚ) (limit : Nat)
    (pool : List (Nat × CandEnv)) : List RankEntry × List SaveEvent :=
  let survivors := rankSurvivors job minComp pool
  ((sortDescBy (fun e => e.compatibility_score) survivors).take limit,
    survivors.map (mkSave job.id))

/-! ## Candidate comments (`DatabaseService.save_comment` /
`get_candidate_comments`, database_service.py lines 245–338)

The `CANDIDATE_COMMENTS` table is modelled as a list of rows with a
strictly increasing identity column and creation clock. -/

structure CommentRow : Type where
  id : Nat
  candidate_id : Nat
  comment_text : String
  tags : Option String
  created_at : Nat
  created_by : String
deriving DecidableEq

structure CommentDB : Type where
  rows : List CommentRow
  nextId : Nat
  clock : Nat
deriving DecidableEq

/-- Semantics of an `oracledb` bind variable (external library): a
variable returns values through `getvalue()` only if it was passed to an
`execute` whose DML `RETURNING` clause wrote into it.  In `save_comment`
(database_service.py line 289) the variable that is read back is created
fresh by `cursor.var(oracledb.NUMBER)` *after* the insert and never bound
to any statement, so `getvalue()` yields nothing. -/
def freshVarGetValue : Option (List Nat) := none

/-- Python subscript `x[0]` on an optional value list; `None[0]` raises
`TypeError`, modelled by `.error`. -/
def pySubscript0 (o : Option (List Nat)) : Except Unit Nat :=
  match o with
  | none => .error ()
  | some [] => .error ()
  | some (x :: _) => .ok x

/-- `", ".join(tags) if tags else None` (database_service.py line 276). -/
def tagsJoin (tags : Option (List String)) : Option String :=
  match tags with
  | none => none
  | some [] => none
  | some l => some (String.intercalate ", " l)

/-- `DatabaseService.save_comment` (database_service.py lines 245–302):
insert the comment row, then read the returned id from the bind variable
of line 289; an exception rolls the transaction back, releases the
connection and returns `None`.  Returns the comment id (or `None`) and the
resulting database state. -/
def save_comment (db : CommentDB) (candidateId : Nat) (comment : String)
    (tags : Option (List String)) : Option Nat × CommentDB :=
  let inserted : CommentDB :=
    { rows := db.rows ++
        [{ id := db.nextId
           candidate_id := candidateId
           comment_text := comment
           tags := tagsJoin tags
           created_at := db.clock
           created_by := "USER" }]
      nextId := db.nextId + 1
      clock := db.clock + 1 }
  match pySubscript0 freshVarGetValue with
  | .ok cid => (some cid, inserted)
  | .error _ => (none, db)

/-- A comment as returned by `get_candidate_comments`. -/
structure CommentOut : Type where
  id : Nat
  comment : String
  tags : List String
  created_at : Nat
  created_by : String
deriving DecidableEq

/-- `DatabaseService.get_candidate_comments` (database_service.py lines
304–338): rows of the candidate ordered newest first, tags split back on
`", "` (empty list when NULL). -/
def get_candidate_comments (db : CommentDB) (candidateId : Nat) :
    List CommentOut :=
  (sortDescBy (fun r => r.created_at)
      (db.rows.filter (fun r => r.candidate_id == candidateId))).map
    (fun r =>
      { id := r.id
        comment := r.comment_text
        tags := match r.tags with
          | none => []
          | some t => t.splitOn ", "
        created_at := r.created_at
        created_by := r.created_by })

/-! ## Connection-pool accounting (C9)

`db.get_connection()` hands a connection out of the pool and
`db.pool.release(conn)` returns it; `inUse` counts connections currently
held.  The two operations below reproduce, exit path by exit path, the
control flow of `DatabaseService.get_candidate_data`
(database_service.py lines 16–69) and of the
`get_candidate_model_results` endpoint (main.py lines 679–724). -/

structure PoolState : Type where
  inUse : Nat
deriving DecidableEq

def acquireConn (s : PoolState) : PoolState := { inUse := s.inUse + 1 }

def releaseConn (s : PoolState) : PoolState := { inUse := s.inUse - 1 }

/-- Outcome of a `fetchone()` query: a row, no row, or a raised database
error. -/
inductive FetchOutcome (α : Type) : Type where
  | row (a : α) : FetchOutcome α
  | noRow : FetchOutcome α
  | raises : FetchOutcome α

/-- The `USERS` columns read by `get_candidate_data`. -/
structure UserRow : Type where
  id : Nat
  nome : String
  email : String
deriving DecidableEq

/-- `DatabaseService.get_candidate_data` (database_service.py lines
16–69), with the pool ledger threaded through.  `q1` is the outcome of the
`USERS` query, `q2` of the `CANDIDATE_SKILLS` query (`fetchall` either
returns a list or raises).  Exit paths, as in the source: a raised
exception is caught, logs, releases and returns `None` (lines 65–69); the
not-found path returns `None` directly at line 31 — without releasing; the
success path releases at line 61. -/
def get_candidate_data (q1 : FetchOutcome UserRow)
    (q2 : Except Unit (List String)) (s : PoolState) :
    Option CandidateData × PoolState :=
  let s1 := acquireConn s
  match q1 with
  | .raises => (none, releaseConn s1)
  | .noRow => (none, s1)
  | .row r =>
      match q2 with
      | .error _ => (none, releaseConn s1)
      | .ok skills =>
          (some { id := r.id, name := r.nome, email := r.email, skills := skills },
            releaseConn s1)

/-- One row of the `MODEL_RESULTS` join selected by
`get_candidate_model_results`. -/
structure ModelResultRow : Type where
  id : Nat
  job_id : Nat
  job_titulo : String
  score_afinidade_cultural : ℚ
  score_compatibilidade_profissional : ℚ
  red_flags : Option String
  recomendacao : Option String
  detalhes : Option String
  created_at : Nat
deriving DecidableEq

/-- The `get_candidate_model_results` endpoint (main.py lines 679–724):
on success the rows are returned and the connection released (line 718);
on an exception the handler only logs and raises HTTP 500 (lines 722–724)
— the connection is never released on that path. -/
def get_candidate_model_results (q : Except Unit (List ModelResultRow))
    (s : PoolState) : Except Unit (List ModelResultRow) × PoolState :=
  let s1 := acquireConn s
  match q with
  | .error _ => (.error (), s1)
  | .ok rows => (.ok rows, releaseConn s1)

/-! ## Concrete records used in witnesses -/

/-- A concrete talent-pool candidate. -/
def anaCand : TalentCandidate :=
  { id := 1, name := "Ana", email := "ana@x.com", skills := ["Python"],
    profile := "", level := "", area := "" }

/-- `anaCand` with its fallback-search relevance score. -/
def anaScored : ScoredCandidate := { cand := anaCand, relevance_score := 100 }

/-- A concrete candidate with level and area tokens. -/
def plenoCand : TalentCandidate :=
  { id := 1, name := "Ana", email := "ana@x.com", skills := ["python", "sql"],
    profile := "", level := "pleno", area := "backend" }

/-- Concrete extracted search criteria. -/
def pyCriteria : SearchCriteria :=
  { skills := ["Python"], level := "Pleno", area := "Back" }

/-- A concrete candidate for the scorer. -/
def candA : CandidateData := ⟨1, "Ana", "ana@x.com", ["Python", "SQL", "React"]⟩

/-- A concrete job requiring two skills. -/
def jobPS : JobData := ⟨7, ["Python", "SQL"]⟩

/-- A concrete candidate with one skill. -/
def candP : CandidateData := ⟨1, "Ana", "ana@x.com", ["Python"]⟩

/-- A concrete job requiring one skill. -/
def jobP : JobData := ⟨7, ["Python"]⟩

/-- A per-candidate environment whose processing raises. -/
def failEnv : CandEnv := { data := none, outcome := .apiError, fails := true }

/-! ## Basic lemmas about the helpers -/

theorem mem_interList {a b : List String} {s : String} :
    s ∈ interList a b ↔ s ∈ a ∧ s ∈ b := by
  simp [interList, List.mem_filter, List.mem_dedup]

theorem interList_nodup (a b : List String) : (interList a b).Nodup :=
  (List.nodup_dedup a).filter _

theorem interList_length_le_dedup (a b : List String) :
    (interList a b).length ≤ b.dedup.length := by
  refine List.Subperm.length_le (List.subperm_of_subset (interList_nodup a b) ?_)
  intro x hx
  exact (List.mem_dedup).2 (mem_interList.1 hx).2

theorem interList_length_le (a b : List String) :
    (interList a b).length ≤ b.length :=
  le_trans (interList_length_le_dedup a b) (List.Sublist.length_le (List.dedup_sublist b))

theorem sortDescBy_sorted {α κ : Type} [LinearOrder κ] (f : α → κ) (l : List α) :
    (sortDescBy f l).Sorted (fun a b => f b ≤ f a) := by
  haveI : IsTotal α (fun a b => f b ≤ f a) := ⟨fun a b => le_total (f b) (f a)⟩
  haveI : IsTrans α (fun a b => f b ≤ f a) := ⟨fun _ _ _ h1 h2 => le_trans h2 h1⟩
  exact List.sorted_insertionSort _ l

theorem sortDescBy_perm {α κ : Type} [LinearOrder κ] (f : α → κ) (l : List α) :
    (sortDescBy f l).Perm l :=
  List.perm_insertionSort _ l

theorem mem_sortDescBy {α κ : Type} [LinearOrder κ] {f : α → κ} {l : List α} {x : α} :
    x ∈ sortDescBy f l ↔ x ∈ l :=
  (sortDescBy_perm f l).mem_iff

/-! ## Score-bound lemmas -/

theorem ratio_mul_le {m d : ℕ} (hmd : m ≤ d) (hd : 0 < d) {c : ℚ} (hc : 0 ≤ c) :
    (m : ℚ) / (d : ℚ) * c ≤ c := by
  have h1 : (m : ℚ) / (d : ℚ) ≤ 1 :=
    (div_le_one (by exact_mod_cast hd)).mpr (by exact_mod_cast hmd)
  calc (m : ℚ) / (d : ℚ) * c ≤ 1 * c := mul_le_mul_of_nonneg_right h1 hc
    _ = c := one_mul c

theorem professionalScore_nonneg (cand job : List String) :
    0 ≤ professionalScore cand job := by
  unfold professionalScore
  split
  · exact le_refl 0
  · positivity

theorem professionalScore_le_100 (cand job : List String) :
    professionalScore cand job ≤ 100 := by
  unfold professionalScore
  split
  · norm_num
  · rename_i h
    have hd : 0 < job.dedup.length := by
      have hne : job.dedup ≠ [] := fun hnil => h ((List.dedup_eq_nil job).mp hnil)
      exact List.length_pos.mpr hne
    exact ratio_mul_le (interList_length_le_dedup cand job) hd (by norm_num)

theorem skillPoints_nonneg (cr : SearchCriteria) (c : TalentCandidate) :
    0 ≤ skillPoints cr c := by
  unfold skillPoints
  dsimp only
  split
  · exact le_refl 0
  · positivity

theorem skillPoints_le_50 (cr : SearchCriteria) (c : TalentCandidate) :
    skillPoints cr c ≤ 50 := by
  unfold skillPoints
  dsimp only
  split
  · norm_num
  · rename_i h
    have hd : 0 < (cr.skills.map pyToLower).length :=
      List.length_pos.mpr h
    exact ratio_mul_le
      (interList_length_le (c.skills.map pyToLower) (cr.skills.map pyToLower))
      hd (by norm_num)

theorem levelPoints_cases (cr : SearchCriteria) (c : TalentCandidate) :
    levelPoints cr c = 0 ∨ levelPoints cr c = 30 := by
  unfold levelPoints
  dsimp only
  split
  · exact Or.inr rfl
  · exact Or.inl rfl

theorem areaPoints_cases (cr : SearchCriteria) (c : TalentCandidate) :
    areaPoints cr c = 0 ∨ areaPoints cr c = 20 := by
  unfold areaPoints
  dsimp only
  split
  · exact Or.inr rfl
  · exact Or.inl rfl

theorem criteriaScore_nonneg (cr : SearchCriteria) (c : TalentCandidate) :
    0 ≤ criteriaScore cr c := by
  unfold criteriaScore
  have h1 := skillPoints_nonneg cr c
  have h2 := levelPoints_cases cr c
  have h3 := areaPoints_cases cr c
  rcases h2 with h2 | h2 <;> rcases h3 with h3 | h3 <;> rw [h2, h3] <;> linarith

theorem criteriaScore_le_100 (cr : SearchCriteria) (c : TalentCandidate) :
    criteriaScore cr c ≤ 100 := by
  unfold criteriaScore
  have h1 := skillPoints_le_50 cr c
  have h2 := levelPoints_cases cr c
  have h3 := areaPoints_cases cr c
  rcases h2 with h2 | h2 <;> rcases h3 with h3 | h3 <;> rw [h2, h3] <;> linarith

theorem simpleScore_nonneg (query : String) (c : TalentCandidate) :
    0 ≤ simpleScore query c := by
  unfold simpleScore
  dsimp only
  split
  · norm_num
  · split
    · exact le_refl 0
    · positivity

theorem simpleScore_le_100 (query : String) (c : TalentCandidate) :
    simpleScore query c ≤ 100 := by
  unfold simpleScore
  dsimp only
  split
  · norm_num
  · split
    · norm_num
    · rename_i hq
      have hd : 0 < (pyWords (pyToLower query)).dedup.length := List.length_pos.mpr hq
      exact ratio_mul_le (List.Sublist.length_le (List.filter_sublist _)) hd (by norm_num)

/-- Mapping a scored list back to its candidates recovers the input. -/
theorem map_cand_mk (f : TalentCandidate → ℚ) (l : List TalentCandidate) :
    ((l.map (fun c => (⟨c, f c⟩ : ScoredCandidate))).map (fun s => s.cand)) = l := by
  induction l with
  | nil => rfl
  | cons a t ih => simp [ih]

theorem mem_rankSurvivors_minComp {job : JobData} {minComp : ℚ}
    {pool : List (Nat × CandEnv)} {e : RankEntry}
    (he : e ∈ rankSurvivors job minComp pool) :
    minComp ≤ e.compatibility_score := by
  rcases List.mem_filterMap.mp he with ⟨p, _, hp⟩
  unfold processOne at hp
  by_cases hf : p.2.fails
  · simp [hf] at hp
  · simp only [hf, if_false, Bool.false_eq_true] at hp
    cases hd : p.2.data with
    | none => rw [hd] at hp; simp at hp
    | some d =>
        rw [hd] at hp
        dsimp only at hp
        split at hp
        · exact absurd hp (by simp)
        · rename_i hlt
          cases hp
          exact not_lt.mp hlt

/-! ## Claim theorems -/

/-- C1: for every candidate and job, the fallback heuristic analysis (used
on model-service failure or unparsable output) returns
`professional_fit_score = 100 · |candidate skills ∩ required skills| /
|required skill set|` when the required-skill set of the job is non-empty and 0
when it is empty, `compatibility_score = professional_fit_score · 0.7`,
`cultural_fit_score = 50`, recommendation `EM_ANALISE` (the under-review
value), strengths = the set of matched skills (exact case-sensitive
string-set intersection), empty red flags and no suggested questions; the
unparsable-output variant `_extract_info_from_text` differs only in the
analysis text. -/
theorem C1_fallback_heuristic (cand : CandidateData) (job : JobData) (t : String) :
    (job.required_skills ≠ [] →
      (fallbackAnalysis cand job).professional_fit_score =
        100 * ((commonSkills cand.skills job.required_skills).length : ℚ) /
          (job.required_skills.dedup.length : ℚ))
  ∧ (job.required_skills = [] →
      (fallbackAnalysis cand job).professional_fit_score = 0)
  ∧ (fallbackAnalysis cand job).compatibility_score =
      (fallbackAnalysis cand job).professional_fit_score * (7 / 10)
  ∧ (fallbackAnalysis cand job).cultural_fit_score = 50
  ∧ (fallbackAnalysis cand job).recommendation = .str "EM_ANALISE"
  ∧ (fallbackAnalysis cand job).strengths =
      .arr ((commonSkills cand.skills job.required_skills).map JValue.str)
  ∧ (∀ s, s ∈ commonSkills cand.skills job.required_skills ↔
      s ∈ cand.skills ∧ s ∈ job.required_skills)
  ∧ (fallbackAnalysis cand job).red_flags = .arr []
  ∧ (fallbackAnalysis cand job).suggested_questions = .arr []
  ∧ extractInfoFromText t cand job =
      { fallbackAnalysis cand job with ai_analysis := .str (t.take 500) } := by
  refine ⟨?_, ?_, rfl, rfl, rfl, rfl, fun s => mem_interList, rfl, rfl, rfl⟩
  · intro h
    simp only [fallbackAnalysis, professionalScore, if_neg h]
    ring
  · intro h
    simp [fallbackAnalysis, professionalScore, h]

theorem C1_fallback_heuristic_witness :
    jobPS.required_skills ≠ [] ∧
    (fallbackAnalysis candA jobPS).professional_fit_score =
      100 * ((commonSkills candA.skills jobPS.required_skills).length : ℚ) /
        (jobPS.required_skills.dedup.length : ℚ) :=
  ⟨by decide, (C1_fallback_heuristic candA jobPS "").1 (by decide)⟩

/-- C2 (amended): on the fallback paths — model-service failure or
unparsable output — the analysis invariant holds: `compatibility_score ∈
[0,100]`, the recommendation is among the exactly three values, and
`red_flags` / `strengths` are lists (never null).  (On a successfully
parsed reply the parsed fields pass through without range / enum / type
validation, see the counterexample.) -/
theorem C2_fallback_invariants (cand : CandidateData) (job : JobData)
    (o : ModelOutcome)
    (h : ∀ v, o = .replyParsed v → parseAnalysisFromJson v = .error ()) :
    0 ≤ (analyzeCandidateCompatibility cand job o).compatibility_score
  ∧ (analyzeCandidateCompatibility cand job o).compatibility_score ≤ 100
  ∧ (analyzeCandidateCompatibility cand job o).recommendation ∈
      [JValue.str "APROVADO", JValue.str "REPROVADO", JValue.str "EM_ANALISE"]
  ∧ (analyzeCandidateCompatibility cand job o).red_flags.isList = true
  ∧ (analyzeCandidateCompatibility cand job o).strengths.isList = true := by
  have hfb : ∀ a, a = fallbackAnalysis cand job ∨
      (∃ t, a = extractInfoFromText t cand job) →
      0 ≤ a.compatibility_score ∧ a.compatibility_score ≤ 100
        ∧ a.recommendation ∈
            [JValue.str "APROVADO", JValue.str "REPROVADO", JValue.str "EM_ANALISE"]
        ∧ a.red_flags.isList = true ∧ a.strengths.isList = true := by
    intro a ha
    have hps0 := professionalScore_nonneg cand.skills job.required_skills
    have hps1 := professionalScore_le_100 cand.skills job.required_skills
    have hcore : 0 ≤ (fallbackAnalysis cand job).compatibility_score ∧
        (fallbackAnalysis cand job).compatibility_score ≤ 100 := by
      constructor
      · simp only [fallbackAnalysis]
        positivity
      · simp only [fallbackAnalysis]
        nlinarith
    rcases ha with ha | ⟨t, ha⟩
    · subst ha
      exact ⟨hcore.1, hcore.2, by simp [fallbackAnalysis], rfl, rfl⟩
    · subst ha
      exact ⟨hcore.1, hcore.2, by simp [extractInfoFromText, fallbackAnalysis], rfl, rfl⟩
  cases o with
  | apiError => exact hfb _ (Or.inl rfl)
  | replyUnparsable t => exact hfb _ (Or.inr ⟨t, rfl⟩)
  | replyParsed v =>
      have hv := h v rfl
      simp only [analyzeCandidateCompatibility, hv]
      exact hfb _ (Or.inl rfl)

theorem C2_fallback_invariants_witness :
    (∀ v, (ModelOutcome.apiError = .replyParsed v) →
        parseAnalysisFromJson v = .error ())
  ∧ 0 ≤ (analyzeCandidateCompatibility candP jobP .apiError).compatibility_score := by
  refine ⟨(fun _ hv => nomatch hv), ?_⟩
  exact (C2_fallback_invariants candP jobP .apiError (fun _ hv => nomatch hv)).1

/-- C2 counterexample: the claim as stated fails on a successfully parsed
reply.  The reply whose JSON body binds `compatibility_score` to 150 is
passed through without any validation, so
`analyze_candidate_compatibility` returns a compatibility score of 150,
outside `[0,100]`. -/
theorem C2_parsed_score_unvalidated :
    (analyzeCandidateCompatibility candP jobP
        (.replyParsed (.obj [("compatibility_score", .num 150)]))).compatibility_score
      = 150
  ∧ ¬((150 : ℚ) ≤ 100) := by
  constructor
  · rfl
  · norm_num

/-- C3: for every job and candidate pool, the output of the ranking endpoint is
sorted in descending order of compatibility score, has length at most the
caller-supplied limit (validated to 1–100 by `CandidateRankingRequest`),
contains no entry below the caller-supplied minimum threshold, and every
surviving (non-dropped) result has its `save_model_result` call issued
before the list is returned. -/
theorem C3_ranking_endpoint (job : JobData) (minComp : ℚ) (limit : Nat)
    (pool : List (Nat × CandEnv)) (hreq : validRankingRequest limit minComp) :
    (rankCandidates job minComp limit pool).1.Sorted
      (fun a b => b.compatibility_score ≤ a.compatibility_score)
  ∧ (rankCandidates job minComp limit pool).1.length ≤ limit
  ∧ (∀ e ∈ (rankCandidates job minComp limit pool).1,
      minComp ≤ e.compatibility_score)
  ∧ (∀ e ∈ (rankCandidates job minComp limit pool).1,
      mkSave job.id e ∈ (rankCandidates job minComp limit pool).2)
  ∧ (∀ e ∈ rankSurvivors job minComp pool,
      mkSave job.id e ∈ (rankCandidates job minComp limit pool).2) := by
  have hmem : ∀ e ∈ (rankCandidates job minComp limit pool).1,
      e ∈ rankSurvivors job minComp pool := by
    intro e he
    have h1 : e ∈ sortDescBy (fun e => e.compatibility_score)
        (rankSurvivors job minComp pool) :=
      List.take_subset _ _ he
    exact mem_sortDescBy.mp h1
  refine ⟨?_, ?_, ?_, ?_, ?_⟩
  · exact ((sortDescBy_sorted (fun e : RankEntry => e.compatibility_score)
      (rankSurvivors job minComp pool)).sublist (List.take_sublist _ _))
  · exact List.length_take_le _ _
  · exact fun e he => mem_rankSurvivors_minComp (hmem e he)
  · exact fun e he => List.mem_map_of_mem _ (hmem e he)
  · exact fun e he => List.mem_map_of_mem _ he

theorem C3_ranking_endpoint_witness :
    validRankingRequest 10 0
  ∧ (rankCandidates jobP 0 10 []).1.length ≤ 10 := by
  have hreq : validRankingRequest 10 0 :=
    ⟨by norm_num, by norm_num, le_refl 0, by norm_num⟩
  exact ⟨hreq, (C3_ranking_endpoint jobP 0 10 [] hreq).2.1⟩

/-- C4: in the talent-search text fallback, a candidate whose haystack
(name + skills + profile, lowercased) contains the lowercased query as a
substring scores exactly 100; otherwise the score is the word-overlap
ratio `|query words ∩ haystack words| / |query words| · 100` over
whitespace-tokenized word sets; candidates scoring 0 are removed from the
output (which is sorted descending), and a substring match (score 100)
scores strictly above any candidate with a proper partial word overlap. -/
theorem C4_simple_text_search (query : String) (cands : List TalentCandidate) :
    (∀ c : TalentCandidate, pyIn (pyToLower query) (searchHaystack c) = true →
      simpleScore query c = 100)
  ∧ (∀ c : TalentCandidate, pyIn (pyToLower query) (searchHaystack c) = false →
      (pyWords (pyToLower query)).dedup ≠ [] →
      simpleScore query c =
        (((pyWords (pyToLower query)).dedup.filter
            (fun w => decide (w ∈ pyWords (searchHaystack c)))).length : ℚ) /
          ((pyWords (pyToLower query)).dedup.length : ℚ) * 100)
  ∧ (∀ s ∈ simpleTextSearch cands query, 0 < s.relevance_score)
  ∧ (∀ c ∈ cands, 0 < simpleScore query c →
      ({ cand := c, relevance_score := simpleScore query c } : ScoredCandidate)
        ∈ simpleTextSearch cands query)
  ∧ (simpleTextSearch cands query).Sorted
      (fun a b => b.relevance_score ≤ a.relevance_score)
  ∧ (∀ c d : TalentCandidate, pyIn (pyToLower query) (searchHaystack c) = true →
      pyIn (pyToLower query) (searchHaystack d) = false →
      (∃ w ∈ pyWords (pyToLower query), w ∉ pyWords (searchHaystack d)) →
      simpleScore query d < simpleScore query c) := by
  have hsub : ∀ c : TalentCandidate, pyIn (pyToLower query) (searchHaystack c) = true →
      simpleScore query c = 100 := by
    intro c h
    simp [simpleScore, h]
  have hratio : ∀ c : TalentCandidate,
      pyIn (pyToLower query) (searchHaystack c) = false →
      (pyWords (pyToLower query)).dedup ≠ [] →
      simpleScore query c =
        (((pyWords (pyToLower query)).dedup.filter
            (fun w => decide (w ∈ pyWords (searchHaystack c)))).length : ℚ) /
          ((pyWords (pyToLower query)).dedup.length : ℚ) * 100 := by
    intro c h hq
    simp [simpleScore, h, hq]
  refine ⟨hsub, hratio, ?_, ?_, ?_, ?_⟩
  · intro s hs
    have hp := (List.mem_filter.mp hs).2
    exact of_decide_eq_true hp
  · intro c hc h0
    refine List.mem_filter.mpr ⟨?_, decide_eq_true h0⟩
    exact mem_sortDescBy.mpr
      (List.mem_map_of_mem (fun c => (⟨c, simpleScore query c⟩ : ScoredCandidate)) hc)
  · exact (sortDescBy_sorted (fun s : ScoredCandidate => s.relevance_score) _).filter _
  · rintro c d hc hd ⟨w, hw, hwn⟩
    rw [hsub c hc]
    have hq : (pyWords (pyToLower query)).dedup ≠ [] :=
      List.ne_nil_of_mem (List.mem_dedup.mpr hw)
    rw [hratio d hd hq]
    set qw := (pyWords (pyToLower query)).dedup with hqw
    set common := qw.filter (fun w => decide (w ∈ pyWords (searchHaystack d)))
      with hcommon
    have hwq : w ∈ qw := List.mem_dedup.mpr hw
    have hsubl : List.Sublist common qw := List.filter_sublist _
    have hne : common.length ≠ qw.length := by
      intro heq
      have hceq : common = qw := hsubl.eq_of_length heq
      have hwcommon : w ∈ common := hceq ▸ hwq
      have hwt := (List.mem_filter.mp hwcommon).2
      exact hwn (of_decide_eq_true hwt)
    have hlt : common.length < qw.length := lt_of_le_of_ne hsubl.length_le hne
    have hqpos : (0 : ℚ) < (qw.length : ℚ) := by
      exact_mod_cast Nat.pos_of_ne_zero (fun h0 => hq (List.length_eq_zero.mp h0))
    have hr : (common.length : ℚ) / (qw.length : ℚ) < 1 :=
      (div_lt_one hqpos).mpr (by exact_mod_cast hlt)
    calc (common.length : ℚ) / (qw.length : ℚ) * 100
        < 1 * 100 := mul_lt_mul_of_pos_right hr (by norm_num)
      _ = 100 := one_mul 100

theorem C4_simple_text_search_witness :
    pyIn (pyToLower "python") (searchHaystack anaCand) = true
  ∧ simpleScore "python" anaCand = 100 := by
  refine ⟨by decide, ?_⟩
  exact (C4_simple_text_search "python" [anaCand]).1 anaCand (by decide)

/-- C5: in the talent-search criteria path, the score of each candidate is the
sum of a skill component (the case-insensitive skill-overlap ratio,
matched over required-skill count, scaled to at most 50), a level
component (30 points exactly when a level is required — non-empty and not
"qualquer" — and one level token contains the other) and an area
component (20 points exactly when a non-empty required area token occurs
inside the area token of the candidate); no zero-score filtering is applied, so
every input candidate appears in the output, sorted descending by score. -/
theorem C5_criteria_ranking (cr : SearchCriteria) (cands : List TalentCandidate) :
    (∀ c, criteriaScore cr c = skillPoints cr c + levelPoints cr c + areaPoints cr c)
  ∧ (∀ c : TalentCandidate, cr.skills ≠ [] →
      skillPoints cr c =
        ((interList (c.skills.map pyToLower) (cr.skills.map pyToLower)).length : ℚ) /
          (cr.skills.length : ℚ) * 50)
  ∧ (∀ c, 0 ≤ skillPoints cr c ∧ skillPoints cr c ≤ 50)
  ∧ (∀ c : TalentCandidate, pyToLower cr.level ≠ "" → pyToLower cr.level ≠ "qualquer" →
      (levelPoints cr c = 30 ↔
        (pyIn (pyToLower cr.level) (pyToLower c.level)
          || pyIn (pyToLower c.level) (pyToLower cr.level)) = true))
  ∧ (∀ c : TalentCandidate, pyToLower cr.area ≠ "" →
      (areaPoints cr c = 20 ↔ pyIn (pyToLower cr.area) (pyToLower c.area) = true))
  ∧ ((rankByCriteria cr cands).map (fun s => s.cand)).Perm cands
  ∧ (∀ c ∈ cands,
      ({ cand := c, relevance_score := criteriaScore cr c } : ScoredCandidate)
        ∈ rankByCriteria cr cands)
  ∧ (rankByCriteria cr cands).Sorted
      (fun a b => b.relevance_score ≤ a.relevance_score) := by
  refine ⟨fun c => rfl, ?_, ?_, ?_, ?_, ?_, ?_, ?_⟩
  · intro c hne
    have hmap : (cr.skills.map pyToLower) ≠ [] := by
      simpa using hne
    simp [skillPoints, hmap]
  · exact fun c => ⟨skillPoints_nonneg cr c, skillPoints_le_50 cr c⟩
  · intro c hne hnq
    by_cases hcond :
        (pyIn (pyToLower cr.level) (pyToLower c.level)
          || pyIn (pyToLower c.level) (pyToLower cr.level)) = true
    · simp [levelPoints, hne, hnq, hcond]
    · simp [levelPoints, hne, hnq, hcond]
  · intro c hne
    by_cases hcond : pyIn (pyToLower cr.area) (pyToLower c.area) = true
    · simp [areaPoints, hne, hcond]
    · simp [areaPoints, hne, hcond]
  · have h1 := (sortDescBy_perm (fun s : ScoredCandidate => s.relevance_score)
      (cands.map (fun c => (⟨c, criteriaScore cr c⟩ : ScoredCandidate)))).map
        (fun s => s.cand)
    rw [map_cand_mk] at h1
    exact h1
  · intro c hc
    exact mem_sortDescBy.mpr
      (List.mem_map_of_mem (fun c => (⟨c, criteriaScore cr c⟩ : ScoredCandidate)) hc)
  · exact sortDescBy_sorted _ _

theorem C5_criteria_ranking_witness :
    pyCriteria.skills ≠ []
  ∧ skillPoints pyCriteria plenoCand =
      ((interList (plenoCand.skills.map pyToLower)
          (pyCriteria.skills.map pyToLower)).length : ℚ) /
        (pyCriteria.skills.length : ℚ) * 50 := by
  refine ⟨by decide, ?_⟩
  exact (C5_criteria_ranking pyCriteria []).2.1 plenoCand (by decide)

/-- C7: a failure while analyzing any single candidate causes that
candidate to be skipped (excluded from the result and from the persisted
saves, not counted as an error), and the ranking operation as a whole
still returns exactly the results for all other candidates. -/
theorem C7_failed_candidate_skipped (job : JobData) (minComp : ℚ) (limit : Nat)
    (pre post : List (Nat × CandEnv)) (cid : Nat) (env : CandEnv)
    (hfail : env.fails = true) :
    rankCandidates job minComp limit (pre ++ (cid, env) :: post)
      = rankCandidates job minComp limit (pre ++ post) := by
  unfold rankCandidates rankSurvivors
  rw [List.filterMap_append, List.filterMap_append, List.filterMap_cons]
  simp [processOne, hfail]

theorem C7_failed_candidate_skipped_witness :
    failEnv.fails = true
  ∧ rankCandidates jobP 0 10 ([] ++ (5, failEnv) :: [])
      = rankCandidates jobP 0 10 ([] ++ []) :=
  ⟨rfl, C7_failed_candidate_skipped jobP 0 10 [] [] 5 failEnv rfl⟩

/-- C10: every candidate returned by the talent search — on the criteria
path or on the text-fallback path — carries a relevance score in [0,100]
and is an element of the input pool augmented only with that score. -/
theorem C10_search_invariant (query : String) (cands : List TalentCandidate)
    (o : SearchOutcome) :
    ∀ s ∈ searchTalentPool query cands o,
      (0 ≤ s.relevance_score ∧ s.relevance_score ≤ 100) ∧ s.cand ∈ cands := by
  intro s hs
  cases o with
  | criteria cr =>
      have h1 : s ∈ (cands.map (fun c => (⟨c, criteriaScore cr c⟩ : ScoredCandidate))) :=
        mem_sortDescBy.mp hs
      rcases List.mem_map.mp h1 with ⟨c, hc, rfl⟩
      exact ⟨⟨criteriaScore_nonneg cr c, criteriaScore_le_100 cr c⟩, hc⟩
  | fallback =>
      have h0 := (List.mem_filter.mp hs).1
      have h1 : s ∈ (cands.map (fun c => (⟨c, simpleScore query c⟩ : ScoredCandidate))) :=
        mem_sortDescBy.mp h0
      rcases List.mem_map.mp h1 with ⟨c, hc, rfl⟩
      exact ⟨⟨simpleScore_nonneg query c, simpleScore_le_100 query c⟩, hc⟩

theorem C10_search_invariant_witness :
    anaScored ∈ searchTalentPool "python" [anaCand] .fallback
  ∧ (0 ≤ anaScored.relevance_score ∧ anaScored.relevance_score ≤ 100)
      ∧ anaScored.cand ∈ [anaCand] := by
  have hmem : anaScored ∈ searchTalentPool "python" [anaCand] .fallback := by decide
  exact ⟨hmem, C10_search_invariant "python" [anaCand] .fallback anaScored hmem⟩

/-- C6: for every model-reply outcome, `analyze_candidate_compatibility`
returns a complete structured result and never surfaces a parse failure:
a service error or an unparsable/non-conforming reply triggers the local
fallback, and in a successfully parsed JSON object every missing field is
defaulted — score fields to 0, the analysis text to the empty string, the
list fields to empty lists, and the recommendation to the under-review
value — without raising an error. -/
theorem C6_parse_failures_recovered (cand : CandidateData) (job : JobData)
    (t : String) (v : JValue) (kvs : List (String × JValue)) :
    analyzeCandidateCompatibility cand job .apiError = fallbackAnalysis cand job
  ∧ analyzeCandidateCompatibility cand job (.replyUnparsable t)
      = extractInfoFromText t cand job
  ∧ (parseAnalysisFromJson v = .error () →
      analyzeCandidateCompatibility cand job (.replyParsed v)
        = fallbackAnalysis cand job)
  ∧ (∀ a, parseAnalysisFromJson v = .ok a →
      analyzeCandidateCompatibility cand job (.replyParsed v) = a)
  ∧ parseAnalysisFromJson (.obj []) = .ok
      { compatibility_score := 0, cultural_fit_score := 0, professional_fit_score := 0,
        ai_analysis := .str "", red_flags := .arr [], strengths := .arr [],
        recommendation := .str "EM_ANALISE", suggested_questions := .arr [] }
  ∧ (∀ a, parseAnalysisFromJson (.obj kvs) = .ok a →
        (jGet kvs "compatibility_score" = none → a.compatibility_score = 0)
      ∧ (jGet kvs "cultural_fit_score" = none → a.cultural_fit_score = 0)
      ∧ (jGet kvs "professional_fit_score" = none → a.professional_fit_score = 0)
      ∧ (jGet kvs "analysis" = none → a.ai_analysis = .str "")
      ∧ (jGet kvs "red_flags" = none → a.red_flags = .arr [])
      ∧ (jGet kvs "strengths" = none → a.strengths = .arr [])
      ∧ (jGet kvs "recommendation" = none → a.recommendation = .str "EM_ANALISE")
      ∧ (jGet kvs "suggested_questions" = none → a.suggested_questions = .arr [])) := by
  refine ⟨rfl, rfl, ?_, ?_, rfl, ?_⟩
  · intro h
    simp [analyzeCandidateCompatibility, h]
  · intro a h
    simp [analyzeCandidateCompatibility, h]
  · intro a h
    simp only [parseAnalysisFromJson] at h
    cases h1 : pyFloat ((jGet kvs "compatibility_score").getD (.num 0)) with
    | error e => rw [h1] at h; exact absurd h (by simp)
    | ok cs =>
        cases h2 : pyFloat ((jGet kvs "cultural_fit_score").getD (.num 0)) with
        | error e => rw [h1, h2] at h; exact absurd h (by simp)
        | ok cf =>
            cases h3 : pyFloat ((jGet kvs "professional_fit_score").getD (.num 0)) with
            | error e => rw [h1, h2, h3] at h; exact absurd h (by simp)
            | ok pf =>
                rw [h1, h2, h3] at h
                injection h with h
                subst h
                refine ⟨?_, ?_, ?_, ?_, ?_, ?_, ?_, ?_⟩
                · intro hnone
                  rw [hnone] at h1
                  simp only [Option.getD_none, pyFloat] at h1
                  injection h1 with h1
                  exact h1.symm
                · intro hnone
                  rw [hnone] at h2
                  simp only [Option.getD_none, pyFloat] at h2
                  injection h2 with h2
                  exact h2.symm
                · intro hnone
                  rw [hnone] at h3
                  simp only [Option.getD_none, pyFloat] at h3
                  injection h3 with h3
                  exact h3.symm
                · intro hnone
                  simp [hnone]
                · intro hnone
                  simp [hnone]
                · intro hnone
                  simp [hnone]
                · intro hnone
                  simp [hnone]
                · intro hnone
                  simp [hnone]

theorem C6_parse_failures_recovered_witness :
    parseAnalysisFromJson .null = .error ()
  ∧ analyzeCandidateCompatibility candP jobP (.replyParsed .null)
      = fallbackAnalysis candP jobP := by
  refine ⟨rfl, ?_⟩
  exact (C6_parse_failures_recovered candP jobP "oops" .null []).2.2.1 rfl

/-- C8 (code bug): `save_comment` reads the RETURNING id through a bind
variable created fresh *after* the insert (database_service.py line 289,
`cursor.var(oracledb.NUMBER).getvalue()[0]`); that variable holds no
value, the subscript raises, the `except` clause rolls the insert back and
returns `None` — for every database state and every comment.  Adding a
comment therefore never succeeds and the subsequent fetch returns exactly
the comments that were there before, so the add-then-fetch round trip
claimed by the spec cannot return the new comment. -/
theorem C8_save_comment_always_fails :
    ∀ (db : CommentDB) (cid : Nat) (c : String) (tags : Option (List String)),
      (save_comment db cid c tags).1 = none
    ∧ (save_comment db cid c tags).2 = db
    ∧ get_candidate_comments (save_comment db cid c tags).2 cid
        = get_candidate_comments db cid :=
  fun _ _ _ _ => ⟨rfl, rfl, rfl⟩

/-- C9 (code bug): the connection-pool ledger, evaluated on each exit path
of the embedded operations.  `get_candidate_data` releases its connection
on the success and exception paths but leaks it on the candidate-not-found
early return (database_service.py line 31), and the
`get_candidate_model_results` endpoint leaks it on the exception path
(main.py lines 722–724): starting from an idle pool, those paths end with
one connection still checked out. -/
theorem C9_connection_leak :
    (get_candidate_data .noRow (.ok []) ⟨0⟩).2.inUse = 1
  ∧ (get_candidate_data (.row ⟨1, "Ana", "ana@x.com"⟩) (.ok ["Python"]) ⟨0⟩).2.inUse = 0
  ∧ (get_candidate_data .raises (.ok []) ⟨0⟩).2.inUse = 0
  ∧ (get_candidate_data (.row ⟨1, "Ana", "ana@x.com"⟩) (.error ()) ⟨0⟩).2.inUse = 0
  ∧ (get_candidate_model_results (.ok []) ⟨0⟩).2.inUse = 0
  ∧ (get_candidate_model_results (.error ()) ⟨0⟩).2.inUse = 1 :=
  ⟨rfl, rfl, rfl, rfl, rfl, rfl⟩

end Gengit
